import Mathlib

/-!
Shallow embedding of the MolTopolParser GROMACS parsing module
(`moltopolparser/gmx.py`) together with proofs about its section locator,
record decoders, aggregate builders and top-level assembler.

Conventions used throughout:
* machine text is `List Char` (one Python `str`), file content is `List String`
  (one string per line, trailing newline characters kept where `readlines`
  keeps them, e.g. in `GroFile.parser` lines);
* Python `int()` / `float()` become `parseInt? / parseFloat?`, returning exact
  integers / rationals (floats are modelled as the exact rational value of the
  decimal literal; the inputs in scope are all finite decimal literals);
* fallible Python code returns `Except PyErr`; each `PyErr` constructor records
  which Python exception the source raises at that point;
* the file system seen by `open()` is an association list `Fs`.
-/

/-- Python whitespace (`str.split()`, `str.strip()`, regex `\s`), ASCII range. -/
def pySpace (c : Char) : Bool :=
  c = ' ' || c = '\t' || c = '\n' || c = '\r' || c = '\x0b' || c = '\x0c'

/-- Regex word character `\w`, ASCII range (the section titles in the source
    are all ASCII words). -/
def wordChar (c : Char) : Bool := c.isAlphanum || c = '_'

/-- Python `str.strip()` with no argument. -/
def pyStrip (cs : List Char) : List Char :=
  ((cs.dropWhile pySpace).reverse.dropWhile pySpace).reverse

/-- One step of `pySplit` (fold from the right). -/
def pySplitStep (c : Char) (acc : List (List Char)) : List (List Char) :=
  if pySpace c then [] :: acc
  else
    match acc with
    | [] => [[c]]
    | w :: ws => (c :: w) :: ws

/-- Python `str.split()` with no argument: split on whitespace runs, no empty
    pieces. -/
def pySplit (cs : List Char) : List (List Char) :=
  (cs.foldr pySplitStep []).filter (· ≠ [])

/-- Python `str.startswith(p)`. -/
def pyStartsWith (p cs : List Char) : Bool := p.isPrefixOf cs

/-- Value of a list of ASCII digits. -/
def digitsVal (ds : List Char) : Nat :=
  ds.foldl (fun a c => a * 10 + (c.toNat - 48)) 0

/-- Python `int(str)`: optional surrounding whitespace, optional sign, one or
    more ASCII digits consuming the whole string. -/
def parseInt? (cs : List Char) : Option Int :=
  let core : List Char → Option Int := fun t =>
    if t ≠ [] ∧ t.all Char.isDigit then some (Int.ofNat (digitsVal t)) else none
  match pyStrip cs with
  | '+' :: t => core t
  | '-' :: t => (core t).map (fun n => -n)
  | t => core t

/-- Exponent tail of a float literal: optional sign then digits, consuming the
    whole remainder. -/
def parseExpTail? (t : List Char) : Option Int :=
  match t with
  | '+' :: d => if d ≠ [] ∧ d.all Char.isDigit then some (Int.ofNat (digitsVal d)) else none
  | '-' :: d => if d ≠ [] ∧ d.all Char.isDigit then some (-Int.ofNat (digitsVal d)) else none
  | d => if d ≠ [] ∧ d.all Char.isDigit then some (Int.ofNat (digitsVal d)) else none

/-- The exact rational value of a decimal literal with sign `neg`, integer
    digits `ip`, fraction digits `fp` and decimal exponent `e`, built with
    `mkRat` over integer arithmetic. -/
def pyFloatVal (neg : Bool) (ip fp : List Char) (e : Int) : ℚ :=
  let m : Nat := digitsVal ip * 10 ^ fp.length + digitsVal fp
  let num : Int := if neg then -Int.ofNat m else Int.ofNat m
  if 0 ≤ e then mkRat (num * Int.ofNat (10 ^ e.toNat)) (10 ^ fp.length)
  else mkRat num (10 ^ fp.length * 10 ^ (-e).toNat)

/-- Python `float(str)` on finite decimal / scientific literals (the only float
    forms occurring in these files): optional whitespace, optional sign,
    digits with optional fraction and optional exponent.  The result is the
    exact rational value of the literal. -/
def parseFloat? (cs : List Char) : Option ℚ :=
  let s := pyStrip cs
  let (neg, t) :=
    match s with
    | '+' :: t => (false, t)
    | '-' :: t => (true, t)
    | t => (false, t)
  let ip := t.takeWhile Char.isDigit
  let r1 := t.dropWhile Char.isDigit
  match r1 with
  | '.' :: t2 =>
    let fp := t2.takeWhile Char.isDigit
    let r2 := t2.dropWhile Char.isDigit
    if ip = [] ∧ fp = [] then none
    else
      match r2 with
      | [] => some (pyFloatVal neg ip fp 0)
      | 'e' :: tl => (parseExpTail? tl).map (pyFloatVal neg ip fp)
      | 'E' :: tl => (parseExpTail? tl).map (pyFloatVal neg ip fp)
      | _ => none
  | [] => if ip = [] then none else some (pyFloatVal neg ip [] 0)
  | 'e' :: tl => if ip = [] then none else (parseExpTail? tl).map (pyFloatVal neg ip [])
  | 'E' :: tl => if ip = [] then none else (parseExpTail? tl).map (pyFloatVal neg ip [])
  | _ => none

/-- The Python exceptions the source can raise, with the data each carries. -/
inductive PyErr where
  /-- an explicit `raise ValueError(msg)` in the source -/
  | valueError (msg : String)
  /-- `ValueError` raised by `int(s)` on a non-integer string -/
  | convInt (s : String)
  /-- `ValueError` raised by `float(s)` on a non-float string -/
  | convFloat (s : String)
  /-- `IndexError` from list indexing / sequence unpacking -/
  | indexError
  /-- `AttributeError` (e.g. calling `.copy()` on `None`) -/
  | attributeError (msg : String)
  /-- `FileNotFoundError` from `open` -/
  | fileNotFound (path : String)
  /-- the `ValueError` of `GroFile.parser` whose f-string message embeds the
      offending line -/
  | groFormat (line : String)
deriving Repr, DecidableEq

instance {ε α : Type} [DecidableEq ε] [DecidableEq α] : DecidableEq (Except ε α) :=
  fun a b =>
    match a, b with
    | .ok x, .ok y =>
      if h : x = y then isTrue (by rw [h]) else isFalse (by simp [h])
    | .error x, .error y =>
      if h : x = y then isTrue (by rw [h]) else isFalse (by simp [h])
    | .ok _, .error _ => isFalse (by simp)
    | .error _, .ok _ => isFalse (by simp)

/-- Lift an optional conversion result into `Except`, raising `e` on failure. -/
def toE {α : Type} (o : Option α) (e : PyErr) : Except PyErr α :=
  match o with
  | some a => .ok a
  | none => .error e

/-- Python `lst[i]` on a list, `Int` index with negative wrap-around and
    `IndexError` out of range. -/
def pyGet {α : Type} (l : List α) (i : Int) : Except PyErr α :=
  let j : Int := if i < 0 then i + l.length else i
  if h : 0 ≤ j ∧ j.toNat < l.length then .ok (l.get ⟨j.toNat, h.2⟩)
  else .error .indexError

/-- Python `lst[i]` with a `Nat` index (no wrap-around needed). -/
def pyIdx {α : Type} (l : List α) (i : Nat) : Except PyErr α :=
  match l.get? i with
  | some a => .ok a
  | none => .error .indexError

/-- Clamp one bound of a Python slice. -/
def sliceIdx (len : Nat) (i : Int) : Nat :=
  if i < 0 then (max (i + len) 0).toNat else min i.toNat len

/-- Python slice `l[a:b]` with `Int` bounds. -/
def pySlice {α : Type} (l : List α) (a b : Int) : List α :=
  (l.take (sliceIdx l.length b)).drop (sliceIdx l.length a)

/-- The file system visible to `open()`: path to content lines (one entry per
    line, without the trailing newline; every place the source inspects a raw
    line is invariant under that choice). -/
abbrev Fs : Type := List (String × List String)

/-- Read a file, if present. -/
def fsRead (fs : Fs) (path : String) : Option (List String) :=
  (fs.find? (fun p => p.1 = path)).map (·.2)

/-- `filter_comment(line)`: `line.split(";")[0].strip()`. -/
def filter_comment (line : List Char) : List Char :=
  pyStrip (line.takeWhile (· ≠ ';'))

/-! ## Section locator (`find_section_range`) -/

/-- Drop leading regex whitespace (`\s*`). -/
def dropSpacesL (cs : List Char) : List Char := cs.dropWhile pySpace

/-- Case-insensitive character comparison (regex `re.IGNORECASE`). -/
def charEqCI (a b : Char) : Bool := a.toLower = b.toLower

/-- Consume `name` case-insensitively from the front of the input, returning
    the remainder on success. -/
def stripCI : List Char → List Char → Option (List Char)
  | [], cs => some cs
  | _ :: _, [] => none
  | n :: ns, c :: cs => if charEqCI n c then stripCI ns cs else none

/-- A match of `\[\s*NAME\s*\]` (case-insensitive) starting at this position:
    the regex `find_section_range` compiles for the target section name.
    Greedy `\s*` followed by a literal is deterministic here because the
    section names are words, so no backtracking is modelled. -/
def headerHere (name cs : List Char) : Bool :=
  match cs with
  | [] => false
  | c :: rest =>
    c = '[' &&
      (match stripCI name (dropSpacesL rest) with
       | none => false
       | some r2 =>
         match dropSpacesL r2 with
         | ']' :: _ => true
         | _ => false)

/-- A match of the generic header pattern `\[\s*\w+\s*\]` starting at this
    position.  The source applies it to `line.lower()`, which is irrelevant:
    brackets, `\s` and `\w` are all closed under lower-casing. -/
def generalHere (cs : List Char) : Bool :=
  match cs with
  | [] => false
  | c :: rest =>
    c = '[' &&
      (let r1 := dropSpacesL rest
       !(r1.takeWhile wordChar).isEmpty &&
         (match dropSpacesL (r1.dropWhile wordChar) with
          | ']' :: _ => true
          | _ => false))

/-- `re.search`: try the pattern at every start position. -/
def searchAny (p : List Char → Bool) : List Char → Bool
  | [] => p []
  | c :: cs => p (c :: cs) || searchAny p cs

/-- Does a line contain the target section header (`pattern.search(lines[x])`)? -/
def matchesSection (name : String) (line : String) : Bool :=
  searchAny (headerHere name.data) line.data

/-- Does a line contain any bracketed header (`re.search(r"\[\s*\w+\s*\]", ...)`)? -/
def matchesGeneral (line : String) : Bool :=
  searchAny generalHere line.data

/-- `idx_section`: indices of lines containing the target section header. -/
def idxSection (lines : List String) (name : String) : List Nat :=
  (List.range lines.length).filter fun i => matchesSection name (lines.getD i "")

/-- `idx_section_general`: indices of lines containing any bracketed header. -/
def idxGeneral (lines : List String) : List Nat :=
  (List.range lines.length).filter fun i => matchesGeneral (lines.getD i "")

/-- Python `list.index` (position of the first occurrence; the `ValueError` it
    raises when absent is the `none` case). -/
def pyListIndex : List Nat → Nat → Option Nat
  | [], _ => none
  | a :: t, x => if a = x then some 0 else (pyListIndex t x).map (· + 1)

/-- `find_section_range(lines, section_name)`: returns
    `(start, end, idx_section, idx_section_general)`, with `start = end = -1`
    when the target section never occurs.  The `.error` case models the
    uncaught `ValueError` of `idx_section_general.index(start)` when the first
    target header is not itself a generic bracketed header (impossible for the
    word-shaped section names the source uses). -/
def find_section_range (lines : List String) (name : String) :
    Except PyErr (Int × Int × List Nat × List Nat) :=
  match idxSection lines name with
  | [] => .ok (-1, -1, [], idxGeneral lines)
  | s :: _ =>
    match pyListIndex (idxGeneral lines) s with
    | none => .error (.valueError "x is not in list")
    | some j =>
      match (idxGeneral lines).get? (j + 1) with
      | some e => .ok ((s : Int), (e : Int), idxSection lines name, idxGeneral lines)
      | none => .ok ((s : Int), (lines.length : Int), idxSection lines name, idxGeneral lines)

/-- The per-occurrence block end every record decoder computes:
    `end = idx_section_general[idx_section_general.index(start) + 1]`, the
    `IndexError` branch slicing to end of input (returned here as `n`, the
    line count, which yields the same slice). -/
def occEnd (igen : List Nat) (s n : Nat) : Except PyErr Nat :=
  match pyListIndex igen s with
  | none => .error (.valueError "x is not in list")
  | some j =>
    match igen.get? (j + 1) with
    | some e => .ok e
    | none => .ok n

/-- Specification-side description of the block end: the smallest generic
    header index strictly after `s`, or `n` when none exists. -/
def leastAfter (igen : List Nat) (s n : Nat) : Nat :=
  ((igen.filter fun g => s < g).head?).getD n

theorem pairwise_idxGeneral (lines : List String) :
    (idxGeneral lines).Pairwise (· < ·) :=
  (List.pairwise_lt_range _).filter _

theorem pyListIndex_isSome {t : List Nat} {x : Nat} (h : x ∈ t) :
    ∃ j, pyListIndex t x = some j := by
  induction t with
  | nil => cases h
  | cons a t ih =>
    by_cases hax : a = x
    · exact ⟨0, by simp [pyListIndex, hax]⟩
    · have hxt : x ∈ t := by
        cases h with
        | head => exact absurd rfl hax
        | tail _ h => exact h
      obtain ⟨j, hj⟩ := ih hxt
      exact ⟨j + 1, by simp [pyListIndex, hax, hj]⟩

theorem occEnd_eq_leastAfter (igen : List Nat) (hig : igen.Pairwise (· < ·))
    (s : Nat) (hs : s ∈ igen) (n : Nat) :
    occEnd igen s n = .ok (leastAfter igen s n) := by
  induction igen with
  | nil => cases hs
  | cons a t ih =>
    obtain ⟨ha, ht⟩ := List.pairwise_cons.mp hig
    by_cases hax : a = s
    · subst hax
      have hft : t.filter (fun g => a < g) = t :=
        List.filter_eq_self.mpr fun x hx => decide_eq_true (ha x hx)
      have hfa : ¬ a < a := lt_irrefl a
      simp only [occEnd, pyListIndex, if_pos rfl, leastAfter, List.filter_cons,
        decide_eq_true_eq, hfa, if_neg hfa, hft]
      cases t <;> simp
    · have hst : s ∈ t := by
        cases hs with
        | head => exact absurd rfl hax
        | tail _ h => exact h
      have has : a < s := ha s hst
      have hns : ¬ s < a := by omega
      obtain ⟨j, hj⟩ := pyListIndex_isSome hst
      have h1 : occEnd (a :: t) s n = occEnd t s n := by
        simp [occEnd, pyListIndex, hax, hj]
      have h2 : leastAfter (a :: t) s n = leastAfter t s n := by
        simp [leastAfter, List.filter_cons, hns]
      rw [h1, h2]
      exact ih ht hst

theorem leastAfter_min (igen : List Nat) (hig : igen.Pairwise (· < ·))
    (s n : Nat) : ∀ g ∈ igen, s < g → leastAfter igen s n ≤ g := by
  induction igen with
  | nil => intro g hg; cases hg
  | cons a t ih =>
    obtain ⟨ha, ht⟩ := List.pairwise_cons.mp hig
    intro g hg hsg
    by_cases hsa : s < a
    · have hla : leastAfter (a :: t) s n = a := by
        simp [leastAfter, List.filter_cons, hsa]
      rw [hla]
      cases hg with
      | head => exact le_refl a
      | tail _ hgt => exact le_of_lt (ha g hgt)
    · have hla : leastAfter (a :: t) s n = leastAfter t s n := by
        simp [leastAfter, List.filter_cons, hsa]
      rw [hla]
      cases hg with
      | head => exact absurd hsg hsa
      | tail _ hgt => exact ih ht g hgt hsg

theorem leastAfter_mem (igen : List Nat) (s n : Nat) :
    leastAfter igen s n = n ∨
      (leastAfter igen s n ∈ igen ∧ s < leastAfter igen s n) := by
  unfold leastAfter
  cases h : igen.filter (fun g => s < g) with
  | nil => left; rfl
  | cons e t =>
    right
    have he : e ∈ igen.filter (fun g => s < g) := by
      rw [h]; exact List.mem_cons_self e t
    have hm := List.mem_filter.mp he
    refine ⟨hm.1, ?_⟩
    · have := of_decide_eq_true hm.2
      simpa using this

/-- C1: the section locator reports precisely the lines containing the target
    header (case-insensitively, whitespace-tolerant inside the brackets); when
    the target never occurs it signals not-found with start index `-1`; and for
    each occurrence `s` the decoded block ends at the smallest bracketed-header
    index strictly greater than `s` (never at a later occurrence of the same
    name past an intervening unrelated header), or at end of input when no such
    header exists.  The hypothesis `hcover` states that each target header line
    is also a generic bracketed header line, which holds for every word-shaped
    section name used in the source. -/
theorem C1_section_locator (lines : List String) (name : String)
    (hcover : ∀ i ∈ idxSection lines name, i ∈ idxGeneral lines) :
    (∀ i, i ∈ idxSection lines name ↔
        (i < lines.length ∧ matchesSection name (lines.getD i "") = true)) ∧
    (idxSection lines name = [] →
        find_section_range lines name = .ok (-1, -1, [], idxGeneral lines)) ∧
    (∀ s rest, idxSection lines name = s :: rest →
        find_section_range lines name =
          .ok ((s : Int), ((leastAfter (idxGeneral lines) s lines.length : Nat) : Int),
            idxSection lines name, idxGeneral lines)) ∧
    (∀ s ∈ idxSection lines name,
        occEnd (idxGeneral lines) s lines.length
          = .ok (leastAfter (idxGeneral lines) s lines.length)) ∧
    (∀ s ∈ idxSection lines name, ∀ g ∈ idxGeneral lines, s < g →
        leastAfter (idxGeneral lines) s lines.length ≤ g) ∧
    (∀ s ∈ idxSection lines name,
        leastAfter (idxGeneral lines) s lines.length = lines.length ∨
          (leastAfter (idxGeneral lines) s lines.length ∈ idxGeneral lines ∧
            s < leastAfter (idxGeneral lines) s lines.length)) := by
  have hpw := pairwise_idxGeneral lines
  refine ⟨?_, ?_, ?_, ?_, ?_, ?_⟩
  · intro i
    simp [idxSection, List.mem_filter, List.mem_range]
  · intro h
    simp [find_section_range, h]
  · intro s rest hsr
    have hs : s ∈ idxSection lines name := by rw [hsr]; exact List.mem_cons_self s rest
    have hsg : s ∈ idxGeneral lines := hcover s hs
    have hocc := occEnd_eq_leastAfter (idxGeneral lines) hpw s hsg lines.length
    unfold occEnd at hocc
    split at hocc
    · simp at hocc
    · rename_i j hpi
      split at hocc
      · rename_i e hg
        injection hocc with he
        unfold find_section_range
        rw [hsr]
        rw [List.get?_eq_getElem?] at hg
        simp [hpi, hg, he]
      · rename_i hg
        injection hocc with he
        unfold find_section_range
        rw [hsr]
        rw [List.get?_eq_getElem?] at hg
        simp [hpi, hg, ← he]
  · intro s hs
    exact occEnd_eq_leastAfter (idxGeneral lines) hpw s (hcover s hs) lines.length
  · intro s _ g hg hsg
    exact leastAfter_min (idxGeneral lines) hpw s lines.length g hg hsg
  · intro s _
    exact leastAfter_mem (idxGeneral lines) s lines.length

/-- Concrete lines for the C1 witness: two occurrences of `[ bonds ]` (the
    second in different case) separated by an unrelated `[ pairs ]` header. -/
def c1Lines : List String := ["[ bonds ]", "1 2", "[ pairs ]", "3 4", "[ BONDS ]", "5 6"]

/-- Witness for C1 at concrete input: the first `[ bonds ]` block ends at the
    intervening `[ pairs ]` header (index 2), not at the second `[ bonds ]`
    occurrence, and the last block runs to end of input. -/
theorem C1_section_locator_witness :
    (0 ∈ idxSection c1Lines "bonds" ↔
       (0 < c1Lines.length ∧ matchesSection "bonds" (c1Lines.getD 0 "") = true)) ∧
    find_section_range c1Lines "bonds" =
      .ok ((0 : Int), ((leastAfter (idxGeneral c1Lines) 0 c1Lines.length : Nat) : Int),
        idxSection c1Lines "bonds", idxGeneral c1Lines) ∧
    occEnd (idxGeneral c1Lines) 0 c1Lines.length
      = .ok (leastAfter (idxGeneral c1Lines) 0 c1Lines.length) ∧
    occEnd (idxGeneral c1Lines) 4 c1Lines.length
      = .ok (leastAfter (idxGeneral c1Lines) 4 c1Lines.length) := by
  have h := C1_section_locator c1Lines "bonds" (by decide)
  exact ⟨h.1 0, h.2.2.1 0 [4] (by decide), h.2.2.2.1 0 (by decide), h.2.2.2.1 4 (by decide)⟩

/-! ## Coordinate-file atom lines (the loop body of `GroFile.parser`) -/

/-- One atom of a `.gro` coordinate file.  Velocities default to `0.0`. -/
structure GroAtom where
  resid : Int
  resname : String
  atom_name : String
  index : Int
  x : ℚ
  y : ℚ
  z : ℚ
  vx : ℚ := 0
  vy : ℚ := 0
  vz : ℚ := 0
deriving Repr, DecidableEq

/-- The seven fixed-column position fields of one atom line, converted in the
    order the `atom_data` dict literal evaluates them; velocities keep their
    defaults. -/
def groPosFields (line : List Char) : Except PyErr GroAtom :=
  match parseInt? (pySlice line 0 5) with
  | none => .error (.convInt (String.mk (pySlice line 0 5)))
  | some resid =>
    let resname := String.mk (pyStrip (pySlice line 5 10))
    let atom_name := String.mk (pyStrip (pySlice line 10 15))
    match parseInt? (pySlice line 15 20) with
    | none => .error (.convInt (String.mk (pySlice line 15 20)))
    | some index =>
      match parseFloat? (pySlice line 20 28) with
      | none => .error (.convFloat (String.mk (pySlice line 20 28)))
      | some x =>
        match parseFloat? (pySlice line 28 36) with
        | none => .error (.convFloat (String.mk (pySlice line 28 36)))
        | some y =>
          match parseFloat? (pySlice line 36 44) with
          | none => .error (.convFloat (String.mk (pySlice line 36 44)))
          | some z => .ok { resid, resname, atom_name, index, x, y, z }

/-- One line of the `GroFile.parser` atom loop: build the position fields, add
    the three velocity slices when the raw line length is 69, and reject any
    length other than 45 or 69 with the `ValueError` whose message embeds the
    line.  (The source appends the atom before the length check, but the raise
    aborts the whole parse, so per line the effect is this.) -/
def decodeGroAtomLine (line : List Char) : Except PyErr GroAtom :=
  match groPosFields line with
  | .error e => .error e
  | .ok a0 =>
    match (if line.length = 69 then
             match parseFloat? (pySlice line 44 52) with
             | none => Except.error (PyErr.convFloat (String.mk (pySlice line 44 52)))
             | some vx =>
               match parseFloat? (pySlice line 52 60) with
               | none => Except.error (PyErr.convFloat (String.mk (pySlice line 52 60)))
               | some vy =>
                 match parseFloat? (pySlice line 60 68) with
                 | none => Except.error (PyErr.convFloat (String.mk (pySlice line 60 68)))
                 | some vz => Except.ok { a0 with vx := vx, vy := vy, vz := vz }
           else Except.ok a0) with
    | .error e => .error e
    | .ok a =>
      if line.length = 45 ∨ line.length = 69 then .ok a
      else .error (.groFormat (String.mk line))

theorem groPosFields_vel (line : List Char) (a : GroAtom)
    (h : groPosFields line = .ok a) : a.vx = 0 ∧ a.vy = 0 ∧ a.vz = 0 := by
  unfold groPosFields at h
  cases h1 : parseInt? (pySlice line 0 5) with
  | none => simp [h1] at h
  | some resid =>
  simp only [h1] at h
  cases h2 : parseInt? (pySlice line 15 20) with
  | none => simp [h2] at h
  | some idx =>
  simp only [h2] at h
  cases h3 : parseFloat? (pySlice line 20 28) with
  | none => simp [h3] at h
  | some x =>
  simp only [h3] at h
  cases h4 : parseFloat? (pySlice line 28 36) with
  | none => simp [h4] at h
  | some y =>
  simp only [h4] at h
  cases h5 : parseFloat? (pySlice line 36 44) with
  | none => simp [h5] at h
  | some z =>
  simp only [h5] at h
  injection h with h6
  subst h6
  exact ⟨rfl, rfl, rfl⟩

/-- C3 amended: a 45-character atom line that decodes yields zero velocities; a
    69-character line that decodes yields the velocities sliced from columns
    44:52, 52:60 and 60:68; any other length always raises, and it raises the
    format error naming the offending line exactly in the case where the seven
    fixed-column position fields themselves convert (otherwise the earlier
    `int()`/`float()` conversion error, which does not embed the line, is
    raised first). -/
theorem C3_gro_line_arity (line : List Char) :
    (line.length = 45 →
       (decodeGroAtomLine line).map (fun a => (a.vx, a.vy, a.vz))
         = (decodeGroAtomLine line).map (fun _ => ((0 : ℚ), (0 : ℚ), (0 : ℚ)))) ∧
    (line.length = 69 →
       (decodeGroAtomLine line).map (fun a => (some a.vx, some a.vy, some a.vz))
         = (decodeGroAtomLine line).map (fun _ =>
             (parseFloat? (pySlice line 44 52), parseFloat? (pySlice line 52 60),
              parseFloat? (pySlice line 60 68)))) ∧
    (line.length ≠ 45 → line.length ≠ 69 →
       (∃ e, decodeGroAtomLine line = .error e) ∧
       (∀ a0, groPosFields line = .ok a0 →
          decodeGroAtomLine line = .error (.groFormat (String.mk line)))) := by
  refine ⟨?_, ?_, ?_⟩
  · intro h45
    unfold decodeGroAtomLine
    cases hp : groPosFields line with
    | error e => simp [Except.map]
    | ok a0 =>
      obtain ⟨hvx, hvy, hvz⟩ := groPosFields_vel line a0 hp
      simp [h45, hvx, hvy, hvz, Except.map]
  · intro h69
    unfold decodeGroAtomLine
    cases hp : groPosFields line with
    | error e => simp [Except.map]
    | ok a0 =>
      cases hvx : parseFloat? (pySlice line 44 52) with
      | none => simp [h69, hvx, Except.map]
      | some vx =>
        cases hvy : parseFloat? (pySlice line 52 60) with
        | none => simp [h69, hvx, hvy, Except.map]
        | some vy =>
          cases hvz : parseFloat? (pySlice line 60 68) with
          | none => simp [h69, hvx, hvy, hvz, Except.map]
          | some vz => simp [h69, hvx, hvy, hvz, Except.map]
  · intro h45 h69
    constructor
    · unfold decodeGroAtomLine
      cases hp : groPosFields line with
      | error e => exact ⟨e, rfl⟩
      | ok a0 =>
        refine ⟨.groFormat (String.mk line), ?_⟩
        simp [h45, h69]
    · intro a0 hp
      unfold decodeGroAtomLine
      rw [hp]
      simp [h45, h69]

/-- A 20-character truncated atom line: the position columns up to the atom
    index parse, but the x column is empty. -/
def c3Line : List Char := "    1WATER  OW1    1".data

/-- C3 counterexample: on a line whose length is neither 45 nor 69, the code
    raises the `float('')` conversion error, not the format error whose
    message names the offending line, contradicting the claim that any other
    line length raises the format error naming that line. -/
theorem C3_counterexample :
    c3Line.length ≠ 45 ∧ c3Line.length ≠ 69 ∧
      decodeGroAtomLine c3Line = .error (.convFloat "") ∧
      decodeGroAtomLine c3Line ≠ .error (.groFormat (String.mk c3Line)) := by
  refine ⟨by decide, by decide, by rfl, ?_⟩
  rw [show decodeGroAtomLine c3Line = .error (.convFloat "") from rfl]
  simp

/-- A full 45-character position-only line (trailing newline included, exactly
    as `readlines` delivers it). -/
def c3Line45 : List Char := "    1WATER  OW1    1   0.126   1.624   1.679\n".data

/-- A full 69-character position-and-velocity line. -/
def c3Line69 : List Char :=
  "    1WATER  OW1    1   0.126   1.624   1.679  0.1227 -0.0580  0.0434\n".data

/-- A 46-character line: all position fields convert, but the length is bad. -/
def c3Line46 : List Char := "    1WATER  OW1    1   0.126   1.624   1.679 \n".data

/-- Witness for C3 at concrete lines of length 45, 69 and 46. -/
theorem C3_gro_line_arity_witness :
    ((decodeGroAtomLine c3Line45).map (fun a => (a.vx, a.vy, a.vz))
        = (decodeGroAtomLine c3Line45).map (fun _ => ((0 : ℚ), (0 : ℚ), (0 : ℚ)))) ∧
    ((decodeGroAtomLine c3Line69).map (fun a => (some a.vx, some a.vy, some a.vz))
        = (decodeGroAtomLine c3Line69).map (fun _ =>
            (parseFloat? (pySlice c3Line69 44 52), parseFloat? (pySlice c3Line69 52 60),
             parseFloat? (pySlice c3Line69 60 68)))) ∧
    (∃ e, decodeGroAtomLine c3Line46 = .error e) :=
  ⟨(C3_gro_line_arity c3Line45).1 (by decide),
   (C3_gro_line_arity c3Line69).2.1 (by decide),
   ((C3_gro_line_arity c3Line46).2.2 (by decide) (by decide)).1⟩

/-! ## Dihedral validators (`check_func_and_coefficients`) -/

/-- A Python number as pydantic sees it for the `Union[float, int]` field
    `c2`: the `isinstance(..., int)` check distinguishes the two. -/
inductive PyNum where
  | pint (n : Int)
  | pfloat (q : ℚ)
deriving Repr, DecidableEq

/-- The values dict handed to `MolForceFieldDihedraltype`'s `mode="before"`
    validator (also the record itself, which the validator returns unchanged). -/
structure FfDihedralValues where
  ai : String := ""
  aj : String := ""
  ak : String := ""
  al : String := ""
  func : Option Int := none
  c0 : Option ℚ := none
  c1 : Option ℚ := none
  c2 : Option PyNum := none
  c3 : Option ℚ := none
  c4 : Option ℚ := none
  c5 : Option ℚ := none
deriving Repr, DecidableEq

/-- The values dict handed to `MolTopDihedral`'s validator. -/
structure TopDihedralValues where
  ai : Int := 0
  aj : Int := 0
  ak : Int := 0
  al : Int := 0
  func : Option Int := none
  c0 : Option ℚ := none
  c1 : Option ℚ := none
  c2 : Option ℚ := none
  c3 : Option ℚ := none
  c4 : Option ℚ := none
  c5 : Option ℚ := none
deriving Repr, DecidableEq

/-- `isinstance(values.get("c2"), int)`. -/
def isPyInt : Option PyNum → Bool
  | some (.pint _) => true
  | _ => false

theorem isPyInt_iff (o : Option PyNum) : isPyInt o = true ↔ ∃ n, o = some (.pint n) := by
  cases o with
  | none => simp [isPyInt]
  | some p => cases p <;> simp [isPyInt]

/-- `MolForceFieldDihedraltype.check_func_and_coefficients`. -/
def ffCheckFuncAndCoefficients (v : FfDihedralValues) :
    Except PyErr FfDihedralValues :=
  let firstStage : Except PyErr Unit :=
    if v.func = some 3 ∨ v.func = some 5 then
      if v.c0 = none then .error (.valueError "c0 is required when func is 3 or 5.")
      else if v.c1 = none then .error (.valueError "c1 is required when func is 3 or 5.")
      else if v.c2 = none then .error (.valueError "c2 is required when func is 3 or 5.")
      else if v.c3 = none then .error (.valueError "c3 is required when func is 3 or 5.")
      else if v.c4 = none then .error (.valueError "c4 is required when func is 3 or 5.")
      else if v.c5 = none then .error (.valueError "c5 is required when func is 3 or 5.")
      else .ok ()
    else if v.func = some 4 ∨ v.func = some 9 then
      if v.c0 = none ∨ v.c1 = none then
        .error (.valueError "c0 and c1 are required when func is 4 or 9.")
      else if v.c2 = none then .error (.valueError "c2 is required when func is 4 or 9.")
      else if !(isPyInt v.c2) then
        .error (.valueError "c2 must be an integer when func is 4 or 9.")
      else .ok ()
    else .error (.valueError "Only func values 3, 4, 5, and 9 are supported.")
  match firstStage with
  | .error e => .error e
  | .ok _ =>
    if v.func = some 3 ∨ v.func = some 5 then .ok v
    else
      if v.c3 ≠ none then .error (.valueError "c3 can only have a value if func is 3 or 5.")
      else if v.c4 ≠ none then .error (.valueError "c4 can only have a value if func is 3 or 5.")
      else if v.c5 ≠ none then .error (.valueError "c5 can only have a value if func is 3 or 5.")
      else .ok v

/-- `MolTopDihedral.check_func_and_coefficients`. -/
def topCheckFuncAndCoefficients (v : TopDihedralValues) :
    Except PyErr TopDihedralValues :=
  if v.func = some 3 ∨ v.func = some 5 then .ok v
  else
    if v.c3 ≠ none then .error (.valueError "c3 can only have a value if func is 3 or 5.")
    else if v.c4 ≠ none then .error (.valueError "c4 can only have a value if func is 3 or 5.")
    else if v.c5 ≠ none then .error (.valueError "c5 can only have a value if func is 3 or 5.")
    else .ok v

/-- C4: a force-field dihedral-type with func 3 or 5 validates exactly when all
    of c0..c5 are present; with func 4 or 9 exactly when c0 and c1 are present,
    c2 is present as a Python `int`, and none of c3..c5 is set; any other func
    value (including a missing one) raises the unsupported-func error.  A
    topology dihedral with func outside {3, 5} validates exactly when none of
    c3..c5 is set, and with func 3 or 5 always validates (no other coefficient
    restriction). -/
theorem C4_dihedral_validation (v : FfDihedralValues) (w : TopDihedralValues) :
    ((v.func = some 3 ∨ v.func = some 5) →
       ((∃ u, ffCheckFuncAndCoefficients v = .ok u) ↔
         (v.c0 ≠ none ∧ v.c1 ≠ none ∧ v.c2 ≠ none ∧
          v.c3 ≠ none ∧ v.c4 ≠ none ∧ v.c5 ≠ none))) ∧
    ((v.func = some 4 ∨ v.func = some 9) →
       ((∃ u, ffCheckFuncAndCoefficients v = .ok u) ↔
         (v.c0 ≠ none ∧ v.c1 ≠ none ∧ (∃ n, v.c2 = some (.pint n)) ∧
          v.c3 = none ∧ v.c4 = none ∧ v.c5 = none))) ∧
    ((∀ k, v.func = some k → k ≠ 3 ∧ k ≠ 4 ∧ k ≠ 5 ∧ k ≠ 9) →
       ffCheckFuncAndCoefficients v
         = .error (.valueError "Only func values 3, 4, 5, and 9 are supported.")) ∧
    (¬ (w.func = some 3 ∨ w.func = some 5) →
       ((∃ u, topCheckFuncAndCoefficients w = .ok u) ↔
         (w.c3 = none ∧ w.c4 = none ∧ w.c5 = none))) ∧
    ((w.func = some 3 ∨ w.func = some 5) →
       topCheckFuncAndCoefficients w = .ok w) := by
  refine ⟨?_, ?_, ?_, ?_, ?_⟩
  · intro h35
    unfold ffCheckFuncAndCoefficients
    rw [if_pos h35]
    split_ifs with h1 h2 h3 h4 h5 h6 <;> simp_all
  · intro h49
    have h35 : ¬ (v.func = some 3 ∨ v.func = some 5) := by
      rcases h49 with h | h <;> simp [h]
    unfold ffCheckFuncAndCoefficients
    rw [if_neg h35, if_pos h49]
    by_cases h1 : v.c0 = none ∨ v.c1 = none
    · rw [if_pos h1]
      constructor
      · intro hu
        obtain ⟨u, hu⟩ := hu
        exact absurd hu (by simp)
      · rintro ⟨hc0, hc1, -⟩
        rcases h1 with h | h
        · exact absurd h hc0
        · exact absurd h hc1
    · rw [if_neg h1]
      push_neg at h1
      obtain ⟨hc0, hc1⟩ := h1
      by_cases h2 : v.c2 = none
      · rw [if_pos h2]
        constructor
        · intro hu
          obtain ⟨u, hu⟩ := hu
          exact absurd hu (by simp)
        · rintro ⟨-, -, ⟨n, hn⟩, -⟩
          rw [hn] at h2
          exact absurd h2 (by simp)
      · rw [if_neg h2]
        by_cases h3 : isPyInt v.c2 = true
        · have h3n : ¬ ((!isPyInt v.c2) = true) := by simp [h3]
          rw [if_neg h3n, if_neg h35]
          obtain ⟨n, hn⟩ := (isPyInt_iff v.c2).mp h3
          by_cases h4 : v.c3 ≠ none
          · rw [if_pos h4]
            constructor
            · intro hu
              obtain ⟨u, hu⟩ := hu
              exact absurd hu (by simp)
            · rintro ⟨-, -, -, hc3, -, -⟩
              exact absurd hc3 h4
          · rw [if_neg h4]
            push_neg at h4
            by_cases h5 : v.c4 ≠ none
            · rw [if_pos h5]
              constructor
              · intro hu
                obtain ⟨u, hu⟩ := hu
                exact absurd hu (by simp)
              · rintro ⟨-, -, -, -, hc4, -⟩
                exact absurd hc4 h5
            · rw [if_neg h5]
              push_neg at h5
              by_cases h6 : v.c5 ≠ none
              · rw [if_pos h6]
                constructor
                · intro hu
                  obtain ⟨u, hu⟩ := hu
                  exact absurd hu (by simp)
                · rintro ⟨-, -, -, -, -, hc5⟩
                  exact absurd hc5 h6
              · rw [if_neg h6]
                push_neg at h6
                constructor
                · intro _
                  exact ⟨hc0, hc1, ⟨n, hn⟩, h4, h5, h6⟩
                · intro _
                  exact ⟨v, rfl⟩
        · have h3f : isPyInt v.c2 = false := by
            revert h3; cases isPyInt v.c2 <;> simp
          have h3p : (!isPyInt v.c2) = true := by simp [h3f]
          rw [if_pos h3p]
          constructor
          · intro hu
            obtain ⟨u, hu⟩ := hu
            exact absurd hu (by simp)
          · rintro ⟨-, -, ⟨n, hn⟩, -⟩
            exact absurd ((isPyInt_iff v.c2).mpr ⟨n, hn⟩) h3
  · intro hk
    have h35 : ¬ (v.func = some 3 ∨ v.func = some 5) := by
      rcases hv : v.func with _ | k
      · simp
      · have := hk k hv
        simp [hv]
        omega
    have h49 : ¬ (v.func = some 4 ∨ v.func = some 9) := by
      rcases hv : v.func with _ | k
      · simp
      · have := hk k hv
        simp [hv]
        omega
    unfold ffCheckFuncAndCoefficients
    rw [if_neg h35, if_neg h49]
  · intro h35
    unfold topCheckFuncAndCoefficients
    rw [if_neg h35]
    split_ifs with h1 h2 h3 <;> simp_all
  · intro h35
    unfold topCheckFuncAndCoefficients
    rw [if_pos h35]

/-- Concrete func-3 force-field dihedral values with every coefficient set
    (note that c2 may be a float when func is 3 or 5). -/
def c4FullValues : FfDihedralValues :=
  { ai := "Br", aj := "C", ak := "CB", al := "CT", func := some 3,
    c0 := some 0, c1 := some 0, c2 := some (.pfloat 0),
    c3 := some 0, c4 := some 0, c5 := some 0 }

/-- Concrete unsupported-func force-field dihedral values. -/
def c4BadFunc : FfDihedralValues := { func := some 7, c0 := some 1, c1 := some 2 }

/-- Concrete topology dihedral values with func 1 and no c3..c5. -/
def c4TopValues : TopDihedralValues :=
  { ai := 1, aj := 2, ak := 3, al := 4, func := some 1, c0 := some 0 }

/-- Witness for C4 at concrete values: func 3 with all coefficients passes,
    func 7 raises the unsupported-func error, and a topology dihedral with
    func 1 and no c3..c5 passes. -/
theorem C4_dihedral_validation_witness :
    (∃ u, ffCheckFuncAndCoefficients c4FullValues = .ok u) ∧
    ffCheckFuncAndCoefficients c4BadFunc
      = .error (.valueError "Only func values 3, 4, 5, and 9 are supported.") ∧
    (∃ u, topCheckFuncAndCoefficients c4TopValues = .ok u) :=
  ⟨((C4_dihedral_validation c4FullValues c4TopValues).1 (Or.inl rfl)).mpr (by decide),
   (C4_dihedral_validation c4BadFunc c4TopValues).2.2.1 (by decide),
   ((C4_dihedral_validation c4BadFunc c4TopValues).2.2.2.1 (by decide)).mpr (by decide)⟩

/-! ## Force-field record decoders -/

/-- An `[ atomtypes ]` record. -/
structure MolForceFieldAtomtype where
  name : String
  at_num : Option Int := none
  mass : ℚ
  charge : ℚ
  ptype : String
  sigma : ℚ
  epsilon : ℚ
deriving Repr, DecidableEq

/-- Field mapping of one `[ atomtypes ]` line after token truncation and
    trailing-comment-token dropping: 7 tokens carry the atomic number, 6 leave
    it absent, anything else is the format `ValueError`.  Conversions run in
    the order of the `data` dict literal. -/
def decodeAtomtypeParts : List (List Char) → Except PyErr MolForceFieldAtomtype
  | [p0, p1, p2, p3, p4, p5, p6] =>
    match parseInt? p1 with
    | none => .error (.convInt (String.mk p1))
    | some atnum =>
      match parseFloat? p2 with
      | none => .error (.convFloat (String.mk p2))
      | some mass =>
        match parseFloat? p3 with
        | none => .error (.convFloat (String.mk p3))
        | some charge =>
          match parseFloat? p5 with
          | none => .error (.convFloat (String.mk p5))
          | some sigma =>
            match parseFloat? p6 with
            | none => .error (.convFloat (String.mk p6))
            | some epsilon =>
              .ok { name := String.mk p0, at_num := some atnum, mass := mass,
                    charge := charge, ptype := String.mk p4, sigma := sigma,
                    epsilon := epsilon }
  | [p0, p1, p2, p3, p4, p5] =>
    match parseFloat? p1 with
    | none => .error (.convFloat (String.mk p1))
    | some mass =>
      match parseFloat? p2 with
      | none => .error (.convFloat (String.mk p2))
      | some charge =>
        match parseFloat? p4 with
        | none => .error (.convFloat (String.mk p4))
        | some sigma =>
          match parseFloat? p5 with
          | none => .error (.convFloat (String.mk p5))
          | some epsilon =>
            .ok { name := String.mk p0, at_num := none, mass := mass,
                  charge := charge, ptype := String.mk p3, sigma := sigma,
                  epsilon := epsilon }
  | _ => .error (.valueError "The atomtype line is not formatted correctly.")

/-- One `[ atomtypes ]` data line (loop body of `MolForceFieldAtomtype.parser`):
    `parts = target_line.split()[:7]`, then `parts[-1]` (an `IndexError` on an
    all-whitespace line) is dropped when it starts with `;`. -/
def decodeAtomtypeLine (line : List Char) : Except PyErr MolForceFieldAtomtype :=
  match ((pySplit line).take 7).getLast? with
  | none => .error .indexError
  | some lastTok =>
    decodeAtomtypeParts
      (if pyStartsWith [';'] lastTok then ((pySplit line).take 7).dropLast
       else (pySplit line).take 7)

/-- The token list `decodeAtomtypeLine` finally maps fields from. -/
def atomtypeKeptTokens (line : List Char) : List (List Char) :=
  match ((pySplit line).take 7).getLast? with
  | none => []
  | some lastTok =>
    if pyStartsWith [';'] lastTok then ((pySplit line).take 7).dropLast
    else (pySplit line).take 7

/-- A `[ nonbond_params ]` record. -/
structure MolForceFieldNonbondParam where
  ai : String
  aj : String
  func : Int
  c6 : ℚ
  c12 : ℚ
deriving Repr, DecidableEq

/-- One `[ nonbond_params ]` line: `parts = target_line.split()[:5]`, indexed
    then converted in dict order (an `IndexError` when tokens are missing). -/
def decodeNonbondLine (line : List Char) : Except PyErr MolForceFieldNonbondParam :=
  let parts := (pySplit line).take 5
  match pyIdx parts 0 with
  | .error e => .error e
  | .ok p0 =>
    match pyIdx parts 1 with
    | .error e => .error e
    | .ok p1 =>
      match pyIdx parts 2 with
      | .error e => .error e
      | .ok p2 =>
        match parseInt? p2 with
        | none => .error (.convInt (String.mk p2))
        | some func =>
          match pyIdx parts 3 with
          | .error e => .error e
          | .ok p3 =>
            match parseFloat? p3 with
            | none => .error (.convFloat (String.mk p3))
            | some c6 =>
              match pyIdx parts 4 with
              | .error e => .error e
              | .ok p4 =>
                match parseFloat? p4 with
                | none => .error (.convFloat (String.mk p4))
                | some c12 =>
                  .ok { ai := String.mk p0, aj := String.mk p1, func := func,
                        c6 := c6, c12 := c12 }

/-- A `[ bondtypes ]` record. -/
structure MolForceFieldBondtype where
  ai : String
  aj : String
  func : Int
  b0 : ℚ
  kb : ℚ
deriving Repr, DecidableEq

/-- One `[ bondtypes ]` line: `parts = target_line.split()[:5]`. -/
def decodeBondtypeLine (line : List Char) : Except PyErr MolForceFieldBondtype :=
  let parts := (pySplit line).take 5
  match pyIdx parts 0 with
  | .error e => .error e
  | .ok p0 =>
    match pyIdx parts 1 with
    | .error e => .error e
    | .ok p1 =>
      match pyIdx parts 2 with
      | .error e => .error e
      | .ok p2 =>
        match parseInt? p2 with
        | none => .error (.convInt (String.mk p2))
        | some func =>
          match pyIdx parts 3 with
          | .error e => .error e
          | .ok p3 =>
            match parseFloat? p3 with
            | none => .error (.convFloat (String.mk p3))
            | some b0 =>
              match pyIdx parts 4 with
              | .error e => .error e
              | .ok p4 =>
                match parseFloat? p4 with
                | none => .error (.convFloat (String.mk p4))
                | some kb =>
                  .ok { ai := String.mk p0, aj := String.mk p1, func := func,
                        b0 := b0, kb := kb }

/-- An `[ angletypes ]` record. -/
structure MolForceFieldAngletype where
  ai : String
  aj : String
  ak : String
  func : Int
  th0 : ℚ
  cth : ℚ
deriving Repr, DecidableEq

/-- One `[ angletypes ]` line: `parts = target_line.split()[:6]`. -/
def decodeAngletypeLine (line : List Char) : Except PyErr MolForceFieldAngletype :=
  let parts := (pySplit line).take 6
  match pyIdx parts 0 with
  | .error e => .error e
  | .ok p0 =>
    match pyIdx parts 1 with
    | .error e => .error e
    | .ok p1 =>
      match pyIdx parts 2 with
      | .error e => .error e
      | .ok p2 =>
        match pyIdx parts 3 with
        | .error e => .error e
        | .ok p3 =>
          match parseInt? p3 with
          | none => .error (.convInt (String.mk p3))
          | some func =>
            match pyIdx parts 4 with
            | .error e => .error e
            | .ok p4 =>
              match parseFloat? p4 with
              | none => .error (.convFloat (String.mk p4))
              | some th0 =>
                match pyIdx parts 5 with
                | .error e => .error e
                | .ok p5 =>
                  match parseFloat? p5 with
                  | none => .error (.convFloat (String.mk p5))
                  | some cth =>
                    .ok { ai := String.mk p0, aj := String.mk p1,
                          ak := String.mk p2, func := func, th0 := th0,
                          cth := cth }

/-- One `[ dihedraltypes ]` data line (loop body of
    `MolForceFieldDihedraltype.parser`): the comment tail is stripped, then
    8 tokens map func, c0, c1 and an *integer-converted* c2, 11 tokens
    additionally map c3..c5 as floats but still convert c2 with `int()`, and
    any other token count is the format `ValueError`.  The record construction
    runs the func/coefficient validator. -/
def decodeDihedraltypeLine (line : List Char) : Except PyErr FfDihedralValues :=
  let parts := pySplit (filter_comment line)
  if parts.length = 8 then
    let p8 := parts.take 8
    match parseInt? (p8.getD 4 []) with
    | none => .error (.convInt (String.mk (p8.getD 4 [])))
    | some func =>
      match parseFloat? (p8.getD 5 []) with
      | none => .error (.convFloat (String.mk (p8.getD 5 [])))
      | some c0 =>
        match parseFloat? (p8.getD 6 []) with
        | none => .error (.convFloat (String.mk (p8.getD 6 [])))
        | some c1 =>
          match parseInt? (p8.getD 7 []) with
          | none => .error (.convInt (String.mk (p8.getD 7 [])))
          | some c2 =>
            ffCheckFuncAndCoefficients
              { ai := String.mk (p8.getD 0 []), aj := String.mk (p8.getD 1 []),
                ak := String.mk (p8.getD 2 []), al := String.mk (p8.getD 3 []),
                func := some func, c0 := some c0, c1 := some c1,
                c2 := some (.pint c2), c3 := none, c4 := none, c5 := none }
  else if parts.length = 11 then
    let p11 := parts.take 11
    match parseInt? (p11.getD 4 []) with
    | none => .error (.convInt (String.mk (p11.getD 4 [])))
    | some func =>
      match parseFloat? (p11.getD 5 []) with
      | none => .error (.convFloat (String.mk (p11.getD 5 [])))
      | some c0 =>
        match parseFloat? (p11.getD 6 []) with
        | none => .error (.convFloat (String.mk (p11.getD 6 [])))
        | some c1 =>
          match parseInt? (p11.getD 7 []) with
          | none => .error (.convInt (String.mk (p11.getD 7 [])))
          | some c2 =>
            match parseFloat? (p11.getD 8 []) with
            | none => .error (.convFloat (String.mk (p11.getD 8 [])))
            | some c3 =>
              match parseFloat? (p11.getD 9 []) with
              | none => .error (.convFloat (String.mk (p11.getD 9 [])))
              | some c4 =>
                match parseFloat? (p11.getD 10 []) with
                | none => .error (.convFloat (String.mk (p11.getD 10 [])))
                | some c5 =>
                  ffCheckFuncAndCoefficients
                    { ai := String.mk (p11.getD 0 []), aj := String.mk (p11.getD 1 []),
                      ak := String.mk (p11.getD 2 []), al := String.mk (p11.getD 3 []),
                      func := some func, c0 := some c0, c1 := some c1,
                      c2 := some (.pint c2), c3 := some c3, c4 := some c4,
                      c5 := some c5 }
  else .error (.valueError "The dihedraltype line is not formatted correctly.")

/-! ## Section-occurrence loop shared by the force-field record decoders -/

/-- One occurrence's data block, as every decoder slices it:
    `content[start + 1 : end]` with `end` the next generic header, or
    `content[start + 1 :]` in the `IndexError` branch. -/
def occBlock (content : List String) (igen : List Nat) (idx : Nat) :
    Except PyErr (List String) :=
  match pyListIndex igen idx with
  | none => .error (.valueError "x is not in list")
  | some j =>
    match igen.get? (j + 1) with
    | some e => .ok ((content.take e).drop (idx + 1))
    | none => .ok (content.drop (idx + 1))

/-- Decode every line of a block in order, stopping at the first raise. -/
def decodeLines {α : Type} (dec : List Char → Except PyErr α) :
    List String → Except PyErr (List α)
  | [] => .ok []
  | l :: ls =>
    match dec l.data with
    | .error e => .error e
    | .ok r =>
      match decodeLines dec ls with
      | .error e => .error e
      | .ok rs => .ok (r :: rs)

/-- The `for idx in idx_section` loop of each decoder: slice each occurrence's
    block and decode its lines, accumulating records in order. -/
def sectionLoop {α : Type} (dec : List Char → Except PyErr α)
    (content : List String) (igen : List Nat) :
    List Nat → Except PyErr (List α)
  | [] => .ok []
  | idx :: rest =>
    match occBlock content igen idx with
    | .error e => .error e
    | .ok block =>
      match decodeLines dec block with
      | .error e => .error e
      | .ok recs =>
        match sectionLoop dec content igen rest with
        | .error e => .error e
        | .ok rs => .ok (recs ++ rs)

/-- `MolForceFieldAtomtype.parser`: raises when `[ atomtypes ]` is absent. -/
def MolForceFieldAtomtype_parse (content : List String) :
    Except PyErr (List MolForceFieldAtomtype) :=
  match find_section_range content "atomtypes" with
  | .error e => .error e
  | .ok (start, _, isec, igen) =>
    if start = -1 then
      .error (.valueError "Section [ atomtypes ] not found in the content.")
    else sectionLoop decodeAtomtypeLine content igen isec

/-- `MolForceFieldNonbondParam.parser`: `None` when the section is absent. -/
def MolForceFieldNonbondParam_parse (content : List String) :
    Except PyErr (Option (List MolForceFieldNonbondParam)) :=
  match find_section_range content "nonbond_params" with
  | .error e => .error e
  | .ok (start, _, isec, igen) =>
    if start = -1 then .ok none
    else
      match sectionLoop decodeNonbondLine content igen isec with
      | .error e => .error e
      | .ok recs => .ok (some recs)

/-- `MolForceFieldBondtype.parser`: `None` when the section is absent. -/
def MolForceFieldBondtype_parse (content : List String) :
    Except PyErr (Option (List MolForceFieldBondtype)) :=
  match find_section_range content "bondtypes" with
  | .error e => .error e
  | .ok (start, _, isec, igen) =>
    if start = -1 then .ok none
    else
      match sectionLoop decodeBondtypeLine content igen isec with
      | .error e => .error e
      | .ok recs => .ok (some recs)

/-- `MolForceFieldAngletype.parser`: `None` when the section is absent. -/
def MolForceFieldAngletype_parse (content : List String) :
    Except PyErr (Option (List MolForceFieldAngletype)) :=
  match find_section_range content "angletypes" with
  | .error e => .error e
  | .ok (start, _, isec, igen) =>
    if start = -1 then .ok none
    else
      match sectionLoop decodeAngletypeLine content igen isec with
      | .error e => .error e
      | .ok recs => .ok (some recs)

/-- `MolForceFieldDihedraltype.parser`: `None` when the section is absent. -/
def MolForceFieldDihedraltype_parse (content : List String) :
    Except PyErr (Option (List FfDihedralValues)) :=
  match find_section_range content "dihedraltypes" with
  | .error e => .error e
  | .ok (start, _, isec, igen) =>
    if start = -1 then .ok none
    else
      match sectionLoop decodeDihedraltypeLine content igen isec with
      | .error e => .error e
      | .ok recs => .ok (some recs)

/-- A `[ defaults ]` record. -/
structure MolForceFieldDefaults where
  nbfunc : Int
  comb_rule : Int
  gen_pairs : Option String := none
  fudgeLJ : Option ℚ := none
  fudgeQQ : Option ℚ := none
deriving Repr, DecidableEq

/-- `MolForceFieldDefaults.parser`: raises when `[ defaults ]` is absent,
    otherwise decodes the single line after the header. -/
def MolForceFieldDefaults_parse (content : List String) :
    Except PyErr MolForceFieldDefaults :=
  match find_section_range content "defaults" with
  | .error e => .error e
  | .ok (start, _, _, _) =>
    if start = -1 then
      .error (.valueError "Section [ defaults ] not found in the content.")
    else
      match pyGet content (start + 1) with
      | .error e => .error e
      | .ok tline =>
        let parts := pySplit (pyStrip tline.data)
        match pyIdx parts 0 with
        | .error e => .error e
        | .ok p0 =>
          match parseInt? p0 with
          | none => .error (.convInt (String.mk p0))
          | some nbfunc =>
            match pyIdx parts 1 with
            | .error e => .error e
            | .ok p1 =>
              match parseInt? p1 with
              | none => .error (.convInt (String.mk p1))
              | some comb_rule =>
                let gen_pairs : Option String :=
                  if parts.length > 2 then some (String.mk (parts.getD 2 []))
                  else none
                match (if parts.length > 3 then
                         match parseFloat? (parts.getD 3 []) with
                         | some q => Except.ok (some q)
                         | none => Except.error (PyErr.convFloat (String.mk (parts.getD 3 [])))
                       else Except.ok none) with
                | .error e => .error e
                | .ok fudgeLJ =>
                  match (if parts.length > 4 then
                           match parseFloat? (parts.getD 4 []) with
                           | some q => Except.ok (some q)
                           | none => Except.error (PyErr.convFloat (String.mk (parts.getD 4 [])))
                         else Except.ok none) with
                  | .error e => .error e
                  | .ok fudgeQQ =>
                    .ok { nbfunc := nbfunc, comb_rule := comb_rule,
                          gen_pairs := gen_pairs, fudgeLJ := fudgeLJ,
                          fudgeQQ := fudgeQQ }

theorem getLast?_cons_ne_none {α : Type} (a : α) (t : List α) :
    (a :: t).getLast? ≠ none := by
  induction t generalizing a with
  | nil => simp
  | cons b t ih =>
    rw [List.getLast?_cons_cons]
    exact ih b

theorem decodeAtomtypeLine_eq_kept (line : List Char) (hne : pySplit line ≠ []) :
    decodeAtomtypeLine line = decodeAtomtypeParts (atomtypeKeptTokens line) := by
  unfold decodeAtomtypeLine atomtypeKeptTokens
  cases hp : ((pySplit line).take 7).getLast? with
  | none =>
    exfalso
    cases hq : (pySplit line).take 7 with
    | nil =>
      rw [List.take_eq_nil_iff] at hq
      rcases hq with h | h
      all_goals first
        | exact hne h
        | simp at h
    | cons a t =>
      rw [hq] at hp
      exact getLast?_cons_ne_none a t hp
  | some lastTok => rfl

theorem decodeAtomtypeParts_default (l : List (List Char))
    (h6 : l.length ≠ 6) (h7 : l.length ≠ 7) :
    decodeAtomtypeParts l
      = .error (.valueError "The atomtype line is not formatted correctly.") := by
  rcases l with _ | ⟨a0, _ | ⟨a1, _ | ⟨a2, _ | ⟨a3, _ | ⟨a4, _ | ⟨a5, _ | ⟨a6, _ | ⟨a7, t⟩⟩⟩⟩⟩⟩⟩⟩ <;>
    first
      | rfl
      | simp_all

theorem decodeAtomtypeParts_no_count_error (l : List (List Char))
    (h : l.length = 6 ∨ l.length = 7) :
    decodeAtomtypeParts l
      ≠ .error (.valueError "The atomtype line is not formatted correctly.") := by
  rcases l with _ | ⟨a0, _ | ⟨a1, _ | ⟨a2, _ | ⟨a3, _ | ⟨a4, _ | ⟨a5, _ | ⟨a6, _ | ⟨a7, t⟩⟩⟩⟩⟩⟩⟩⟩ <;>
    simp only [List.length_cons, List.length_nil] at h <;>
    first
      | (exfalso; omega)
      | (intro hcontra
         revert hcontra
         unfold decodeAtomtypeParts
         repeat' split
         all_goals simp)

/-- C7 amended: the atom-type line decoder first truncates to at most the
    first 7 whitespace tokens (so a line with more than 7 tokens is decoded
    from its first seven, not rejected), then drops a kept trailing token
    starting with the comment marker; 7 remaining tokens yield a record with
    the atomic number set, 6 yield one with it absent, and any other remaining
    count raises the format error. -/
theorem C7_atomtype_token_arity (line : List Char) (hne : pySplit line ≠ []) :
    (decodeAtomtypeLine line = decodeAtomtypeParts (atomtypeKeptTokens line)) ∧
    ((atomtypeKeptTokens line).length ≠ 6 → (atomtypeKeptTokens line).length ≠ 7 →
       decodeAtomtypeLine line
         = .error (.valueError "The atomtype line is not formatted correctly.")) ∧
    (∀ p0 p1 p2 p3 p4 p5 p6,
       atomtypeKeptTokens line = [p0, p1, p2, p3, p4, p5, p6] →
       ∀ n mass charge sigma epsilon,
         parseInt? p1 = some n → parseFloat? p2 = some mass →
         parseFloat? p3 = some charge → parseFloat? p5 = some sigma →
         parseFloat? p6 = some epsilon →
         decodeAtomtypeLine line
           = .ok { name := String.mk p0, at_num := some n, mass := mass,
                   charge := charge, ptype := String.mk p4, sigma := sigma,
                   epsilon := epsilon }) ∧
    (∀ p0 p1 p2 p3 p4 p5,
       atomtypeKeptTokens line = [p0, p1, p2, p3, p4, p5] →
       ∀ mass charge sigma epsilon,
         parseFloat? p1 = some mass → parseFloat? p2 = some charge →
         parseFloat? p4 = some sigma → parseFloat? p5 = some epsilon →
         decodeAtomtypeLine line
           = .ok { name := String.mk p0, at_num := none, mass := mass,
                   charge := charge, ptype := String.mk p3, sigma := sigma,
                   epsilon := epsilon }) ∧
    (7 ≤ (pySplit line).length →
       decodeAtomtypeLine line
         ≠ .error (.valueError "The atomtype line is not formatted correctly.")) := by
  have hbr := decodeAtomtypeLine_eq_kept line hne
  refine ⟨hbr, ?_, ?_, ?_, ?_⟩
  · intro h6 h7
    rw [hbr]
    exact decodeAtomtypeParts_default _ h6 h7
  · intro p0 p1 p2 p3 p4 p5 p6 hkept n mass charge sigma epsilon h1 h2 h3 h5 h6
    rw [hbr, hkept]
    simp [decodeAtomtypeParts, h1, h2, h3, h5, h6]
  · intro p0 p1 p2 p3 p4 p5 hkept mass charge sigma epsilon h1 h2 h4 h5
    rw [hbr, hkept]
    simp [decodeAtomtypeParts, h1, h2, h4, h5]
  · intro h7
    rw [hbr]
    apply decodeAtomtypeParts_no_count_error
    have hlen : ((pySplit line).take 7).length = 7 := by
      rw [List.length_take]
      omega
    unfold atomtypeKeptTokens
    cases hp : ((pySplit line).take 7).getLast? with
    | none =>
      exfalso
      revert hp
      cases hq : (pySplit line).take 7 with
      | nil => rw [hq] at hlen; simp at hlen
      | cons a t => exact getLast?_cons_ne_none a t
    | some lastTok =>
      by_cases hc : pyStartsWith [';'] lastTok = true
      · simp [hc, List.length_dropLast, hlen]
      · simp [hc, hlen]

/-- An 8-token atom-type line: the tokens beyond the seventh are silently
    dropped, so this decodes to a record instead of raising. -/
def c7Line8 : List Char := "C 6 12.01 0.0 A 0.33 0.35 extra".data

/-- C7 counterexample: a data line with more than 7 tokens (here 8) does not
    raise a format error as the claim states; the decoder truncates to the
    first 7 tokens and returns a record with the atomic number set. -/
theorem C7_counterexample :
    (pySplit c7Line8).length = 8 ∧
    decodeAtomtypeLine c7Line8 =
      .ok { name := "C", at_num := some 6, mass := mkRat 1201 100, charge := 0,
            ptype := "A", sigma := mkRat 33 100, epsilon := mkRat 7 20 } := by
  constructor
  · decide
  · decide

/-- A 7-token atom-type line (amber style). -/
def c7Line7 : List Char := "C 6 12.01 0.0 A 0.33 0.35".data

/-- A 6-token atom-type line (Martini style). -/
def c7Line6 : List Char := "P5 72.0 0.000 A 0.0 0.0".data

/-- A 1-token atom-type line. -/
def c7Line1 : List Char := "C".data

/-- Witness for C7 at concrete 1-, 6-, 7- and 8-token lines. -/
theorem C7_atomtype_token_arity_witness :
    decodeAtomtypeLine c7Line1
      = .error (.valueError "The atomtype line is not formatted correctly.") ∧
    decodeAtomtypeLine c7Line7 =
      .ok { name := "C", at_num := some 6, mass := mkRat 1201 100, charge := 0,
            ptype := "A", sigma := mkRat 33 100, epsilon := mkRat 7 20 } ∧
    decodeAtomtypeLine c7Line6 =
      .ok { name := "P5", at_num := none, mass := 72, charge := 0,
            ptype := "A", sigma := 0, epsilon := 0 } ∧
    decodeAtomtypeLine c7Line8
      ≠ .error (.valueError "The atomtype line is not formatted correctly.") :=
  ⟨(C7_atomtype_token_arity c7Line1 (by decide)).2.1 (by decide) (by decide),
   (C7_atomtype_token_arity c7Line7 (by decide)).2.2.1
     "C".data "6".data "12.01".data "0.0".data "A".data "0.33".data "0.35".data
     (by decide) 6 (mkRat 1201 100) 0 (mkRat 33 100) (mkRat 7 20)
     (by decide) (by decide) (by decide) (by decide) (by decide),
   (C7_atomtype_token_arity c7Line6 (by decide)).2.2.2.1
     "P5".data "72.0".data "0.000".data "A".data "0.0".data "0.0".data
     (by decide) 72 0 0 0
     (by decide) (by decide) (by decide) (by decide),
   (C7_atomtype_token_arity c7Line8 (by decide)).2.2.2.2 (by decide)⟩

/-- C5 amended: when its target section is wholly absent, each of the
    nonbonded-parameter, bond-type, angle-type and dihedral-type decoders
    returns none, while both the defaults decoder and the atom-types decoder
    raise a not-found error. -/
theorem C5_absent_sections (content : List String) :
    (idxSection content "atomtypes" = [] →
       MolForceFieldAtomtype_parse content
         = .error (.valueError "Section [ atomtypes ] not found in the content.")) ∧
    (idxSection content "nonbond_params" = [] →
       MolForceFieldNonbondParam_parse content = .ok none) ∧
    (idxSection content "bondtypes" = [] →
       MolForceFieldBondtype_parse content = .ok none) ∧
    (idxSection content "angletypes" = [] →
       MolForceFieldAngletype_parse content = .ok none) ∧
    (idxSection content "dihedraltypes" = [] →
       MolForceFieldDihedraltype_parse content = .ok none) ∧
    (idxSection content "defaults" = [] →
       MolForceFieldDefaults_parse content
         = .error (.valueError "Section [ defaults ] not found in the content.")) := by
  refine ⟨?_, ?_, ?_, ?_, ?_, ?_⟩
  · intro h
    simp [MolForceFieldAtomtype_parse, find_section_range, h]
  · intro h
    simp [MolForceFieldNonbondParam_parse, find_section_range, h]
  · intro h
    simp [MolForceFieldBondtype_parse, find_section_range, h]
  · intro h
    simp [MolForceFieldAngletype_parse, find_section_range, h]
  · intro h
    simp [MolForceFieldDihedraltype_parse, find_section_range, h]
  · intro h
    simp [MolForceFieldDefaults_parse, find_section_range, h]

/-- Content with a `[ defaults ]` section but no `[ atomtypes ]` section. -/
def c5Content : List String := ["[ defaults ]", "1 2"]

/-- C5 counterexample: the atom-types decoder raises (it does not return none)
    on content whose `[ atomtypes ]` section is wholly absent, so it behaves
    like the defaults decoder, not like the other record decoders. -/
theorem C5_counterexample :
    idxSection c5Content "atomtypes" = [] ∧
    MolForceFieldAtomtype_parse c5Content
      = .error (.valueError "Section [ atomtypes ] not found in the content.") := by
  constructor
  · decide
  · decide

/-- Witness for C5 on content containing none of the six sections. -/
theorem C5_absent_sections_witness :
    MolForceFieldAtomtype_parse ["hello"]
      = .error (.valueError "Section [ atomtypes ] not found in the content.") ∧
    MolForceFieldNonbondParam_parse ["hello"] = .ok none ∧
    MolForceFieldBondtype_parse ["hello"] = .ok none ∧
    MolForceFieldAngletype_parse ["hello"] = .ok none ∧
    MolForceFieldDihedraltype_parse ["hello"] = .ok none ∧
    MolForceFieldDefaults_parse ["hello"]
      = .error (.valueError "Section [ defaults ] not found in the content.") :=
  ⟨(C5_absent_sections ["hello"]).1 (by decide),
   (C5_absent_sections ["hello"]).2.1 (by decide),
   (C5_absent_sections ["hello"]).2.2.1 (by decide),
   (C5_absent_sections ["hello"]).2.2.2.1 (by decide),
   (C5_absent_sections ["hello"]).2.2.2.2.1 (by decide),
   (C5_absent_sections ["hello"]).2.2.2.2.2 (by decide)⟩

/-- C10: on an 11-token force-field dihedral-type data line the decoder
    converts the eighth token (c2) with `int()`, so when that token is a
    float-formatted, non-integer numeral the line raises the integer
    conversion error instead of producing a record, even though func is 3 or 5
    and every coefficient token is a valid float. -/
theorem C10_dihedraltype_c2_int_conversion (line : List Char)
    (parts : List (List Char)) (hp : pySplit (filter_comment line) = parts)
    (hlen : parts.length = 11)
    (hfunc : parseInt? (parts.getD 4 []) = some 3 ∨ parseInt? (parts.getD 4 []) = some 5)
    (hc0 : ∃ q, parseFloat? (parts.getD 5 []) = some q)
    (hc1 : ∃ q, parseFloat? (parts.getD 6 []) = some q)
    (hq2 : ∃ q, parseFloat? (parts.getD 7 []) = some q)
    (hc3 : ∃ q, parseFloat? (parts.getD 8 []) = some q)
    (hc4 : ∃ q, parseFloat? (parts.getD 9 []) = some q)
    (hc5 : ∃ q, parseFloat? (parts.getD 10 []) = some q)
    (hint : parseInt? (parts.getD 7 []) = none) :
    decodeDihedraltypeLine line = .error (.convInt (String.mk (parts.getD 7 []))) := by
  unfold decodeDihedraltypeLine
  rw [hp]
  have h8 : ¬ parts.length = 8 := by omega
  rw [if_neg h8, if_pos hlen]
  have ht : parts.take 11 = parts := List.take_of_length_le (by omega)
  rw [ht]
  obtain ⟨q0, h0⟩ := hc0
  obtain ⟨q1, h1⟩ := hc1
  rcases hfunc with hf | hf <;>
    simp only [List.getD, List.get?_eq_getElem?] at hf h0 h1 hint <;>
    simp [List.getD, hf, h0, h1, hint]

/-- The func-3 dihedral-type example line from the source docstring. -/
def c10Line : List Char :=
  "Br C CB CT 3 0.00000 0.00000 0.00000 0.00000 0.00000 0.00000".data

/-- Witness for C10: the docstring's own func-3 example line raises the
    integer conversion error on its c2 token "0.00000". -/
theorem C10_dihedraltype_witness :
    decodeDihedraltypeLine c10Line = .error (.convInt "0.00000") :=
  C10_dihedraltype_c2_int_conversion c10Line (pySplit (filter_comment c10Line)) rfl
    (by decide) (Or.inl (by decide)) ⟨0, by decide⟩ ⟨0, by decide⟩ ⟨0, by decide⟩
    ⟨0, by decide⟩ ⟨0, by decide⟩ ⟨0, by decide⟩ (by decide)

/-! ## Topology bond decoder (`MolTopBond.parser`) -/

/-- A `[ bonds ]` record; `func` defaults to 1 when only two tokens appear. -/
structure MolTopBond where
  ai : Int
  aj : Int
  func : Int := 1
  c0 : Option ℚ := none
  c1 : Option ℚ := none
deriving Repr, DecidableEq

/-- Field mapping of one `[ bonds ]` data line: 5 tokens give ids, func and
    both coefficients; 3 or 4 tokens give ids and func with coefficients
    unset (a 4th token is ignored); 2 tokens give ids only, func keeping its
    per-record default of 1; anything else is the format `ValueError`. -/
def decodeBondLine (line : List Char) : Except PyErr MolTopBond :=
  match pySplit (filter_comment line) with
  | [p0, p1, p2, p3, p4] =>
    match parseInt? p0 with
    | none => .error (.convInt (String.mk p0))
    | some ai =>
      match parseInt? p1 with
      | none => .error (.convInt (String.mk p1))
      | some aj =>
        match parseInt? p2 with
        | none => .error (.convInt (String.mk p2))
        | some func =>
          match parseFloat? p3 with
          | none => .error (.convFloat (String.mk p3))
          | some c0 =>
            match parseFloat? p4 with
            | none => .error (.convFloat (String.mk p4))
            | some c1 =>
              .ok { ai := ai, aj := aj, func := func, c0 := some c0, c1 := some c1 }
  | [p0, p1, p2] =>
    match parseInt? p0 with
    | none => .error (.convInt (String.mk p0))
    | some ai =>
      match parseInt? p1 with
      | none => .error (.convInt (String.mk p1))
      | some aj =>
        match parseInt? p2 with
        | none => .error (.convInt (String.mk p2))
        | some func => .ok { ai := ai, aj := aj, func := func }
  | [p0, p1, p2, _p3] =>
    match parseInt? p0 with
    | none => .error (.convInt (String.mk p0))
    | some ai =>
      match parseInt? p1 with
      | none => .error (.convInt (String.mk p1))
      | some aj =>
        match parseInt? p2 with
        | none => .error (.convInt (String.mk p2))
        | some func => .ok { ai := ai, aj := aj, func := func }
  | [p0, p1] =>
    match parseInt? p0 with
    | none => .error (.convInt (String.mk p0))
    | some ai =>
      match parseInt? p1 with
      | none => .error (.convInt (String.mk p1))
      | some aj => .ok { ai := ai, aj := aj }
  | _ => .error (.valueError "The bond line is not formatted correctly.")

/-- `MolTopBond.parser`.  The source's `return instance_list` sits inside the
    `for target_line in data_target` loop (and its dead `else: return None`
    companion), so the first data line is decoded and the function returns
    immediately; with no data line the loop body never runs and the function
    falls off its end, returning `None`. -/
def MolTopBond_parse (content : List String) :
    Except PyErr (Option (List MolTopBond)) :=
  match find_section_range content "bonds" with
  | .error e => .error e
  | .ok (start, endv, _, _) =>
    if start = -1 then .ok none
    else
      match pySlice content (start + 1) endv with
      | [] => .ok none
      | l :: _ =>
        match decodeBondLine l.data with
        | .error e => .error e
        | .ok r => .ok (some [r])

/-- A `[ bonds ]` section with two well-formed 5-token data lines. -/
def c2Content : List String := ["[ bonds ]", "1 2 1 0.1 100.0", "2 3 1 0.2 200.0"]

/-- C2 (code bug): the bond section of `c2Content` holds two data lines, yet
    the decoder returns exactly one record (the first line's), because the
    source returns from inside its decoding loop; the claim (and the spec)
    require one record per data line. -/
theorem C2_bond_parser_first_line_only :
    (pySlice c2Content 1 3).length = 2 ∧
    MolTopBond_parse c2Content =
      .ok (some [{ ai := 1, aj := 2, func := 1, c0 := some (mkRat 1 10),
                   c1 := some 100 }]) := by
  constructor
  · decide
  · decide

/-! ## Line normalizer (`clean_lines`) and force-field aggregation -/

/-- The `comment_start_sysmbols` of `clean_lines`. -/
def commentStartSymbols : List (List Char) :=
  [[';'], ['*'], "#include".data, ['#']]

/-- One source of `clean_lines`: keep lines that are nonempty after stripping
    and do not start with a comment/directive marker, then strip them. -/
def cleanPart (ls : List String) : List String :=
  (ls.filter fun l =>
      !(pyStrip l.data).isEmpty &&
        !(commentStartSymbols.any fun p => p.isPrefixOf l.data)).map
    fun l => String.mk (pyStrip l.data)

/-- Read and clean each file in order (`FileNotFoundError` when missing). -/
def readCleanFiles (fs : Fs) : List String → Except PyErr (List String)
  | [] => .ok []
  | f :: rest =>
    match fsRead fs f with
    | none => .error (.fileNotFound f)
    | some ls =>
      match readCleanFiles fs rest with
      | .error e => .error e
      | .ok rs => .ok (cleanPart ls ++ rs)

/-- `clean_lines(lines, files)`. -/
def clean_lines (fs : Fs) (lines? : Option (List String))
    (files? : Option (List String)) : Except PyErr (List String) :=
  let c1 : List String :=
    match lines? with
    | some ls => if ls = [] then [] else cleanPart ls
    | none => []
  match files? with
  | none => .ok c1
  | some fls =>
    if fls = [] then .ok c1
    else
      match readCleanFiles fs fls with
      | .error e => .error e
      | .ok rs => .ok (c1 ++ rs)

/-- A force field: required defaults and atom types, optional sections. -/
structure MolForceField where
  defaults : MolForceFieldDefaults
  atomtypes : List MolForceFieldAtomtype
  nonbond_params : Option (List MolForceFieldNonbondParam) := none
  bondtypes : Option (List MolForceFieldBondtype) := none
  angletypes : Option (List MolForceFieldAngletype) := none
  dihedraltypes : Option (List FfDihedralValues) := none
deriving Repr, DecidableEq

/-- `MolForceField.parser(content_lines, content_files)`: normalize once, run
    every record decoder over the same content, package the results. -/
def MolForceField_parse (fs : Fs)
    (content_lines content_files : Option (List String)) :
    Except PyErr MolForceField :=
  match clean_lines fs content_lines content_files with
  | .error e => .error e
  | .ok ff_content =>
    match MolForceFieldDefaults_parse ff_content with
    | .error e => .error e
    | .ok defaults =>
      match MolForceFieldAtomtype_parse ff_content with
      | .error e => .error e
      | .ok atomtypes =>
        match MolForceFieldNonbondParam_parse ff_content with
        | .error e => .error e
        | .ok nonbond_params =>
          match MolForceFieldBondtype_parse ff_content with
          | .error e => .error e
          | .ok bondtypes =>
            match MolForceFieldAngletype_parse ff_content with
            | .error e => .error e
            | .ok angletypes =>
              match MolForceFieldDihedraltype_parse ff_content with
              | .error e => .error e
              | .ok dihedraltypes =>
                .ok { defaults := defaults, atomtypes := atomtypes,
                      nonbond_params := nonbond_params, bondtypes := bondtypes,
                      angletypes := angletypes, dihedraltypes := dihedraltypes }

/-! ## Top-level assembler (`Topology`) -/

/-- The root topology aggregate.  A one-entry Python dict `{name: count}` is
    modelled as the pair `(name, count)`.  The molecule-topologies field is
    not modelled: no pull of molecule topologies occurs in what follows. -/
structure Topology where
  system : String
  molecules : List (String × Int)
  include_itps : Option (List String) := none
  forcefield : Option MolForceField := none
  inlines : Option (List String) := none
deriving Repr, DecidableEq

/-- Python `list.remove(x)`: drop the first occurrence, `ValueError` if absent. -/
def pyRemove (l : List String) (x : String) : Except PyErr (List String) :=
  if x ∈ l then .ok (l.erase x)
  else .error (.valueError "list.remove(x): x not in list")

/-- Remove each listed line in turn. -/
def pyRemoveAll (l : List String) : List String → Except PyErr (List String)
  | [] => .ok l
  | x :: xs =>
    match pyRemove l x with
    | .error e => .error e
    | .ok l2 => pyRemoveAll l2 xs

/-- One `[ molecules ]` line: `molname, molnum = line.split()[:2]` then
    `int(molnum)` (unpacking fails on fewer than two tokens). -/
def parseMolLine (l : String) : Except PyErr (String × Int) :=
  match (pySplit l.data).take 2 with
  | [a, b] =>
    match parseInt? b with
    | some n => .ok (String.mk a, n)
    | none => .error (.convInt (String.mk b))
  | _ => .error (.valueError "not enough values to unpack")

/-- Decode the `[ molecules ]` block in declaration order, duplicates kept. -/
def parseMolLines : List String → Except PyErr (List (String × Int))
  | [] => .ok []
  | l :: ls =>
    match parseMolLine l with
    | .error e => .error e
    | .ok m =>
      match parseMolLines ls with
      | .error e => .error e
      | .ok ms => .ok (m :: ms)

/-- `os.path.dirname(os.path.abspath(p))` for the already-absolute, normalised
    paths these scenarios use: everything before the final slash. -/
def pyDirname (p : String) : String :=
  String.mk (((p.data.reverse.dropWhile (· ≠ '/')).drop 1).reverse)

/-- Resolve one `#include` line against the directory of `base`: strip the
    inline comment, take the second whitespace token, drop its first and last
    characters (the surrounding quotes), and prepend the directory. -/
def resolveIncludePath (base : String) (l : String) : Except PyErr String :=
  match pyIdx (pySplit (l.data.takeWhile (· ≠ ';'))) 1 with
  | .error e => .error e
  | .ok ptoken =>
    .ok (String.mk ((pyDirname base).data ++ '/' :: pySlice ptoken 1 (-1)))

/-- The first include layer: resolve each `#include` line of the root file in
    order and remove that line from the inlines. -/
def processIncludeLines (filename : String) (inl : List String) :
    List String → Except PyErr (List String × List String)
  | [] => .ok ([], inl)
  | l :: ls =>
    match resolveIncludePath filename l with
    | .error e => .error e
    | .ok resolved =>
      match pyRemove inl l with
      | .error e => .error e
      | .ok inl2 =>
        match processIncludeLines filename inl2 ls with
        | .error e => .error e
        | .ok (ps, inl3) => .ok (resolved :: ps, inl3)

/-- Resolve every `#include` line of one included file against its directory. -/
def resolveIncludeList (base : String) : List String → Except PyErr (List String)
  | [] => .ok []
  | l :: ls =>
    match resolveIncludePath base l with
    | .error e => .error e
    | .ok r =>
      match resolveIncludeList base ls with
      | .error e => .error e
      | .ok rs => .ok (r :: rs)

/-- The second include layer: for each first-layer path (a snapshot copy of
    the list), read the file, drop `;`-prefixed lines, strip the rest, and
    append the resolved paths of its own `#include` lines.  Deeper layers are
    never scanned. -/
def secondIncludeLayer (fs : Fs) (acc : List String) :
    List String → Except PyErr (List String)
  | [] => .ok acc
  | p :: ps =>
    match fsRead fs p with
    | none => .error (.fileNotFound p)
    | some raw =>
      let itplines := (raw.filter fun l => !pyStartsWith [';'] l.data).map
        fun l => String.mk (pyStrip l.data)
      let tls := itplines.filter fun l => pyStartsWith "#include".data l.data
      match resolveIncludeList p tls with
      | .error e => .error e
      | .ok newPaths => secondIncludeLayer fs (acc ++ newPaths) ps

/-- `Topology.parser(filename)`: read the root file; drop raw lines that start
    with `;` or are blank, stripping the rest; take the line after the
    `[ system ]` header as the system name; decode the `[ molecules ]` block
    in order (duplicates kept); resolve `#include` lines against the root
    file's directory and scan each included file once for second-layer
    includes (the `itp_paths.copy()` loop); the lines remaining after
    removing the system lines, the molecules lines and the include lines
    become `inlines` (or `None` when empty).  When no `#include` line exists
    the source sets `itp_paths = None` and the second-layer loop raises
    `AttributeError` on `None.copy()`. -/
def Topology_parse (fs : Fs) (filename : String) : Except PyErr Topology :=
  match fsRead fs filename with
  | none => .error (.fileNotFound filename)
  | some raw =>
    let lines := (raw.filter fun l =>
        !pyStartsWith [';'] l.data && !(pyStrip l.data).isEmpty).map
      fun l => String.mk (pyStrip l.data)
    match find_section_range lines "system" with
    | .error e => .error e
    | .ok (start1, _, _, _) =>
      match pyGet lines (start1 + 1) with
      | .error e => .error e
      | .ok system_name =>
        match pyGet lines start1 with
        | .error e => .error e
        | .ok header1 =>
          match pyRemove lines header1 with
          | .error e => .error e
          | .ok inl1 =>
            match pyRemove inl1 system_name with
            | .error e => .error e
            | .ok inl2 =>
              match find_section_range lines "molecules" with
              | .error e => .error e
              | .ok (start2, endv, _, _) =>
                let data_target :=
                  if endv ≠ 0 then pySlice lines (start2 + 1) endv
                  else pySlice lines (start2 + 1) lines.length
                match parseMolLines data_target with
                | .error e => .error e
                | .ok system_molecules =>
                  match pyRemoveAll inl2 data_target with
                  | .error e => .error e
                  | .ok inl3 =>
                    match pyGet lines start2 with
                    | .error e => .error e
                    | .ok header2 =>
                      match pyRemove inl3 header2 with
                      | .error e => .error e
                      | .ok inl4 =>
                        let target_lines :=
                          lines.filter fun l => pyStartsWith "#include".data l.data
                        if target_lines = [] then
                          .error (.attributeError "NoneType object has no attribute copy")
                        else
                          match processIncludeLines filename inl4 target_lines with
                          | .error e => .error e
                          | .ok (itp1, inl5) =>
                            match secondIncludeLayer fs itp1 itp1 with
                            | .error e => .error e
                            | .ok itp_paths =>
                              .ok { system := system_name,
                                    molecules := system_molecules,
                                    include_itps := some itp_paths,
                                    forcefield := none,
                                    inlines := if inl5 = [] then none else some inl5 }

/-- `Topology.pull_forcefield`: parse and store the force field on the first
    call; raise on a second call.  The stateful mutation is embedded
    functionally: a successful call returns the updated Topology. -/
def pull_forcefield (fs : Fs) (t : Topology) : Except PyErr Topology :=
  match t.forcefield with
  | none =>
    match MolForceField_parse fs (some (t.inlines.getD []))
        (some (t.include_itps.getD [])) with
    | .error e => .error e
    | .ok ff => .ok { t with forcefield := some ff }
  | some _ => .error (.valueError "Force field already exists in the topology.")

/-- A root topology file with `[ system ]` and `[ molecules ]` but no
    `#include` directive. -/
def c6Fs : Fs := [("/data/system.top",
  ["[ system ]", "Urea in Water", "[ molecules ]", "Urea 1", "SOL 1000"])]

/-- C6 (code bug): with no include directive the source sets `itp_paths` to
    `None` and then iterates over `itp_paths.copy()`, so the parser raises
    `AttributeError` instead of succeeding with an include-file list of none
    as the claim (and the spec) state. -/
theorem C6_no_include_crash :
    Topology_parse c6Fs "/data/system.top"
      = .error (.attributeError "NoneType object has no attribute copy") := by
  decide

/-- The root lines of the C8 scenario (Martini-style top file). -/
def c8RootLines : List String :=
  ["#include \"toppar/martini_v2.2.itp\"",
   "#include \"toppar/martini_v2.0_lipids.itp\"",
   "#include \"toppar/martini_v2.0_ions.itp\"",
   "[ system ]", "; name", "Martini system",
   "[ molecules ]", "; name number", "DOPC 2", "DPPC 1", "DOPC 5"]

/-- The C8 file system: the root file plus the three included files, none of
    which holds further `#include` lines. -/
def c8Fs : Fs :=
  [("/data/system.top", c8RootLines),
   ("/data/toppar/martini_v2.2.itp", ["[ defaults ]", "1 2"]),
   ("/data/toppar/martini_v2.0_lipids.itp", ["; lipid parameters"]),
   ("/data/toppar/martini_v2.0_ions.itp", ["; ion parameters"])]

/-- C8: the Martini scenario parses to system "Martini system", the molecules
    list `[("DOPC", 2), ("DPPC", 1), ("DOPC", 5)]` in declaration order with
    the duplicate name kept as a separate entry, and exactly the three include
    paths resolved absolutely against the root file's directory. -/
theorem C8_topology_scenario :
    Topology_parse c8Fs "/data/system.top" =
      .ok { system := "Martini system",
            molecules := [("DOPC", 2), ("DPPC", 1), ("DOPC", 5)],
            include_itps := some ["/data/toppar/martini_v2.2.itp",
                                  "/data/toppar/martini_v2.0_lipids.itp",
                                  "/data/toppar/martini_v2.0_ions.itp"],
            forcefield := none,
            inlines := none } := by
  decide

/-- C9: if a first `pull_forcefield` call on a Topology succeeds, a second
    call on the resulting Topology raises the double-population error, and the
    force-field value stored by the first call is still present (the failed
    second call returns no state, leaving the aggregate as it was). -/
theorem C9_pull_forcefield_twice (fs : Fs) (t t2 : Topology)
    (h : pull_forcefield fs t = .ok t2) :
    pull_forcefield fs t2
        = .error (.valueError "Force field already exists in the topology.") ∧
    (∃ ff, t2.forcefield = some ff) := by
  unfold pull_forcefield at h
  split at h
  · split at h
    · simp at h
    · rename_i ff hff
      injection h with h2
      subst h2
      constructor
      · rfl
      · exact ⟨ff, rfl⟩
  · simp at h

/-- A Topology whose inline lines hold a defaults and an atomtypes section. -/
def c9Top : Topology :=
  { system := "demo", molecules := [],
    inlines := some ["[ defaults ]", "1 2",
                     "[ atomtypes ]", "C 6 12.01 0.0 A 0.33 0.35"] }

/-- The force field the first pull parses out of `c9Top`. -/
def c9ForceField : MolForceField :=
  { defaults := { nbfunc := 1, comb_rule := 2 },
    atomtypes := [{ name := "C", at_num := some 6, mass := mkRat 1201 100,
                    charge := 0, ptype := "A", sigma := mkRat 33 100,
                    epsilon := mkRat 7 20 }] }

/-- `c9Top` after its first successful pull. -/
def c9TopPulled : Topology := { c9Top with forcefield := some c9ForceField }

/-- Witness for C9: a concrete first pull succeeds and the second raises. -/
theorem C9_pull_forcefield_twice_witness :
    pull_forcefield [] c9Top = .ok c9TopPulled ∧
    pull_forcefield [] c9TopPulled
      = .error (.valueError "Force field already exists in the topology.") ∧
    (∃ ff, c9TopPulled.forcefield = some ff) := by
  refine ⟨by decide, ?_, ?_⟩
  · exact (C9_pull_forcefield_twice [] c9Top c9TopPulled (by decide)).1
  · exact (C9_pull_forcefield_twice [] c9Top c9TopPulled (by decide)).2
